import Mathlib

/-!
Verification of the DeepTutor web client streaming-session orchestrator and
persistence-reconciliation layer.

The definitions below are a shallow embedding of the TypeScript source:
the persistence utility library (loadFromStorage, saveToStorage, persistState,
mergeWithDefaults, STORAGE_KEYS, EXCLUDE_FIELDS), the GlobalContext provider
(per-channel debounced save paths, the one-time hydration restore effect, the
WebSocket start and message handlers for the solver, question, research and
chat channels), and the guide session hook.

JavaScript objects are modelled as association lists of string keys and
JSON-like values; JavaScript property access on a missing key yields the
distinguished value JsVal.undef, mirroring the undefined value.
-/

set_option maxHeartbeats 1000000

namespace DeepTutor

/-- JSON-like runtime values held in JavaScript variables and produced by
JSON.parse. The constructor undef models the JavaScript undefined value
(the result of reading an absent property); null models JSON null. -/
inductive JsVal where
  | undef : JsVal
  | null : JsVal
  | bool (b : Bool) : JsVal
  | num (n : Int) : JsVal
  | str (s : String) : JsVal
  | arr (elems : List JsVal) : JsVal
  | obj (fields : List (String × JsVal)) : JsVal
  deriving Repr

/-- The strict comparison v === undefined used by mergeWithDefaults. -/
def JsVal.isUndef : JsVal → Bool
  | .undef => true
  | _ => false

@[simp] theorem JsVal.isUndef_undef : JsVal.undef.isUndef = true := rfl

/-- A JavaScript object viewed as an ordered association list of own
properties, as enumerated by Object.keys. -/
abbrev JsRecord := List (String × JsVal)

/-- Property read r[k] on a record: the value of the first entry with key k,
or undefined when the key is absent. JavaScript objects have no duplicate
keys, so first-entry lookup agrees with object semantics. -/
def getField : JsRecord → String → JsVal
  | [], _ => .undef
  | (k, v) :: rest, key => if k = key then v else getField rest key

/-- Property write r[k] = v: replaces the value at an existing key in place
(JavaScript keeps the original insertion position) or appends a new entry. -/
def setField : JsRecord → String → JsVal → JsRecord
  | [], key, v => [(key, v)]
  | (k, w) :: rest, key, v =>
      if k = key then (key, v) :: rest else (k, w) :: setField rest key v

/-- Object.keys of a record. -/
def keysOf (r : JsRecord) : List String := r.map Prod.fst

/-- Property access v.k on an arbitrary value: reading a property of a
non-object yields undefined. (On the actual null or undefined value the
read throws a TypeError; every such read in the embedded code sits inside
a try/catch whose handler returns the same default as the undefined path,
so folding the throw into undef preserves the observable result.) -/
def JsVal.get : JsVal → String → JsVal
  | .obj fields, key => getField fields key
  | _, _ => .undef

@[simp] theorem getField_nil (key : String) : getField [] key = .undef := rfl

@[simp] theorem getField_cons (k : String) (v : JsVal) (rest : JsRecord) (key : String) :
    getField ((k, v) :: rest) key = if k = key then v else getField rest key := rfl

@[simp] theorem keysOf_nil : keysOf [] = [] := rfl

@[simp] theorem keysOf_cons (k : String) (v : JsVal) (rest : JsRecord) :
    keysOf ((k, v) :: rest) = k :: keysOf rest := rfl

theorem getField_setField_self (r : JsRecord) (key : String) (v : JsVal) :
    getField (setField r key v) key = v := by
  induction r with
  | nil => simp [setField]
  | cons kv rest ih =>
      obtain ⟨k, w⟩ := kv
      by_cases h : k = key <;> simp [setField, h, ih]

theorem getField_setField_other (r : JsRecord) (key k2 : String) (v : JsVal)
    (hne : key ≠ k2) : getField (setField r key v) k2 = getField r k2 := by
  induction r with
  | nil => simp [setField, hne]
  | cons kv rest ih =>
      obtain ⟨k, w⟩ := kv
      by_cases h : k = key
      · subst h
        simp [setField, hne]
      · simp [setField, h, ih]

/-!
Section: Persistence utility library (web/lib/persistence.ts)
-/

/-- Current storage version for data migration support (STORAGE_VERSION). -/
def STORAGE_VERSION : Int := 1

/-- The storage key with the deeptutor namespace applied,
as computed by both loadFromStorage and saveToStorage. -/
def prefixedKey (key : String) : String := "deeptutor_" ++ key

/-- persistState: a partial copy of the state excluding the named fields,
built by iterating Object.keys of the state and copying every entry whose
key is not in the exclusion list. -/
def persistState (state : JsRecord) (exclude : List String) : JsRecord :=
  state.filter (fun kv => !(exclude.contains kv.1))

/-- One iteration of the mergeWithDefaults loop body: skip the key when it
is excluded, skip it when the persisted value is undefined, otherwise
overwrite the field in the accumulated result. -/
def mergeStep (exclude : List String) (result : JsRecord) (kv : String × JsVal) : JsRecord :=
  if exclude.contains kv.1 then result
  else if kv.2.isUndef then result
  else setField result kv.1 kv.2

/-- mergeWithDefaults: starts from a copy of the default state, then walks
the keys of the persisted partial state, skipping excluded keys and keys
whose persisted value is undefined, and overwriting the rest. The none
argument case (falsy persisted state) returns the defaults unchanged. -/
def mergeWithDefaults (persistedState : Option JsRecord) (defaultState : JsRecord)
    (exclude : List String) : JsRecord :=
  match persistedState with
  | none => defaultState
  | some p => p.foldl (mergeStep exclude) defaultState

theorem mem_of_contains_true (l : List String) (a : String)
    (h : l.contains a = true) : a ∈ l := List.elem_iff.mp h

theorem contains_false_of_notMem (l : List String) (a : String)
    (h : a ∉ l) : l.contains a = false := by
  cases hc : l.contains a with
  | false => rfl
  | true => exact absurd (mem_of_contains_true l a hc) h

theorem getField_mergeFold_excluded (p : JsRecord) (acc : JsRecord)
    (exclude : List String) (k : String) (hk : k ∈ exclude) :
    getField (p.foldl (mergeStep exclude) acc) k = getField acc k := by
  induction p generalizing acc with
  | nil => rfl
  | cons kv rest ih =>
      rw [List.foldl_cons, ih]
      unfold mergeStep
      by_cases h1 : kv.1 ∈ exclude
      · simp [List.elem_eq_mem, h1]
      · have hne : kv.1 ≠ k := fun he => h1 (he ▸ hk)
        cases h2 : kv.2.isUndef <;>
          simp [List.elem_eq_mem, h1, h2, getField_setField_other _ _ _ _ hne]

theorem getField_mergeFold_notMem (p : JsRecord) (acc : JsRecord)
    (exclude : List String) (k : String) (hk : k ∉ keysOf p) :
    getField (p.foldl (mergeStep exclude) acc) k = getField acc k := by
  induction p generalizing acc with
  | nil => rfl
  | cons kv rest ih =>
      have hk1 : kv.1 ≠ k := fun he => hk (by simp [keysOf, he])
      have hkrest : k ∉ keysOf rest := fun hm => hk (by simp [keysOf] at hm ⊢; exact Or.inr hm)
      rw [List.foldl_cons, ih _ hkrest]
      unfold mergeStep
      by_cases h1 : kv.1 ∈ exclude
      · simp [List.elem_eq_mem, h1]
      · cases h2 : kv.2.isUndef <;>
          simp [List.elem_eq_mem, h1, h2, getField_setField_other _ _ _ _ hk1]

theorem getField_mergeFold_present (p : JsRecord) (acc : JsRecord)
    (exclude : List String) (k : String)
    (hnd : (keysOf p).Nodup) (hmem : k ∈ keysOf p)
    (hexcl : k ∉ exclude) (hval : ¬ (getField p k).isUndef = true) :
    getField (p.foldl (mergeStep exclude) acc) k = getField p k := by
  induction p generalizing acc with
  | nil => simp [keysOf] at hmem
  | cons kv rest ih =>
      obtain ⟨k1, v1⟩ := kv
      rw [List.foldl_cons]
      rw [keysOf_cons, List.nodup_cons] at hnd
      rw [keysOf_cons, List.mem_cons] at hmem
      by_cases h : k1 = k
      · subst h
        have hrest : k1 ∉ keysOf rest := hnd.1
        have hg : getField ((k1, v1) :: rest) k1 = v1 := by simp
        rw [hg] at hval ⊢
        rw [getField_mergeFold_notMem _ _ _ _ hrest]
        unfold mergeStep
        rw [contains_false_of_notMem _ _ hexcl]
        simp only [Bool.false_eq_true, if_false]
        rw [if_neg hval]
        exact getField_setField_self acc k1 v1
      · have hmem2 : k ∈ keysOf rest := by
          rcases hmem with he | hm
          · exact absurd he.symm h
          · exact hm
        have hg : getField ((k1, v1) :: rest) k = getField rest k := by simp [h]
        rw [hg] at hval ⊢
        exact ih _ hnd.2 hmem2 hval

theorem keysOf_persistState (state : JsRecord) (exclude : List String) :
    keysOf (persistState state exclude) =
      (keysOf state).filter (fun k => !(exclude.contains k)) := by
  induction state with
  | nil => rfl
  | cons kv rest ih =>
      simp only [persistState, List.filter_cons, keysOf, List.elem_eq_mem] at ih ⊢
      by_cases hc : kv.1 ∈ exclude <;> simp [hc, ih]

theorem getField_persistState_notExcluded (state : JsRecord) (exclude : List String)
    (k : String) (hk : k ∉ exclude) :
    getField (persistState state exclude) k = getField state k := by
  induction state with
  | nil => rfl
  | cons kv rest ih =>
      obtain ⟨k1, v1⟩ := kv
      simp only [persistState, List.filter_cons, List.elem_eq_mem] at ih ⊢
      by_cases hc : k1 ∈ exclude
      · have hne : k1 ≠ k := fun he => hk (he ▸ hc)
        simp [hc, hne, ih]
      · by_cases he : k1 = k <;> simp [hc, he, hk, ih]

/-!
Section: Storage layer (localStorage plus JSON.stringify / JSON.parse)

A stored entry is modelled by what JSON.parse makes of its text: empty
("" is falsy, caught by the !raw guard), invalid (JSON.parse throws, the
try/catch returns the default), or valid with the decoded value.
-/

/-- The text stored under a localStorage key, classified by how
loadFromStorage reacts to it. -/
inductive RawText where
  | empty : RawText
  | invalid : RawText
  | valid (v : JsVal) : RawText

/-- The localStorage contents: an association of full (already prefixed)
keys to stored texts. -/
abbrev Store := List (String × RawText)

/-- localStorage.getItem: the stored text, or none when absent. -/
def getItem : Store → String → Option RawText
  | [], _ => none
  | (k, r) :: rest, key => if k = key then some r else getItem rest key

/-- localStorage.setItem: replace the entry in place or append it. -/
def setItem : Store → String → RawText → Store
  | [], key, r => [(key, r)]
  | (k, w) :: rest, key, r =>
      if k = key then (key, r) :: rest else (k, w) :: setItem rest key r

theorem getItem_setItem_self (store : Store) (key : String) (r : RawText) :
    getItem (setItem store key r) key = some r := by
  induction store with
  | nil => simp [setItem, getItem]
  | cons kv rest ih =>
      obtain ⟨k, w⟩ := kv
      by_cases h : k = key <;> simp [setItem, getItem, h, ih]

mutual

/-- The JSON.stringify / JSON.parse round trip on a decoded value: object
entries whose value is undefined are omitted from the serialized text, and
undefined array elements serialize as null. All other values survive
structurally intact (numbers in range, no exotic values are modelled). -/
def jsonNorm : JsVal → JsVal
  | .undef => .undef
  | .null => .null
  | .bool b => .bool b
  | .num n => .num n
  | .str s => .str s
  | .arr es => .arr (jsonNormArr es)
  | .obj fs => .obj (jsonNormFields fs)

/-- JSON round trip of an array: undefined elements become null. -/
def jsonNormArr : List JsVal → List JsVal
  | [] => []
  | e :: rest => (if e.isUndef then .null else jsonNorm e) :: jsonNormArr rest

/-- JSON round trip of object fields: entries with undefined values are
dropped. -/
def jsonNormFields : List (String × JsVal) → List (String × JsVal)
  | [] => []
  | (k, v) :: rest =>
      if v.isUndef then jsonNormFields rest else (k, jsonNorm v) :: jsonNormFields rest

end

/-- JavaScript strict equality between a runtime value and a number
literal, as used by the version check in loadFromStorage. -/
def JsVal.strictEqNum : JsVal → Int → Bool
  | .num m, n => m = n
  | _, _ => false

/-- loadFromStorage: read the prefixed key; a missing, empty or unparsable
entry yields the caller-supplied default, as does a wrapper whose version
tag differs from STORAGE_VERSION; otherwise the wrapped data is returned.
The try/catch also absorbs the property-read TypeError when the parsed
wrapper is null, which coincides with the undefined-version path here. -/
def loadFromStorage (store : Store) (key : String) (defaultValue : JsVal) : JsVal :=
  match getItem store (prefixedKey key) with
  | none => defaultValue
  | some .empty => defaultValue
  | some .invalid => defaultValue
  | some (.valid wrapper) =>
      if (wrapper.get "version").strictEqNum STORAGE_VERSION then wrapper.get "data"
      else defaultValue

/-- saveToStorage: wrap the value with the current version tag and a
timestamp and write the serialized wrapper under the prefixed key. A
quota or serialization error is caught and logged, leaving the store
unchanged and returning normally. -/
def saveToStorage (store : Store) (key : String) (value : JsVal) (now : Int)
    (quotaExceeded : Bool) : Store :=
  if quotaExceeded then store
  else
    setItem store (prefixedKey key)
      (.valid (jsonNorm (.obj
        [("version", .num STORAGE_VERSION), ("data", value), ("timestamp", .num now)])))

/-- JavaScript strict equality between a runtime value and a string
literal, as used by the research status rewrite on restore. -/
def JsVal.strictEqStr : JsVal → String → Bool
  | .str t, s => t = s
  | _, _ => false

/-!
Section: Channels: storage keys and exclusion sets (web/lib/persistence.ts)
-/

/-- The five pipeline channels whose state is persisted by GlobalContext. -/
inductive Channel where
  | chat : Channel
  | solver : Channel
  | question : Channel
  | research : Channel
  | ideagen : Channel
  deriving DecidableEq, Repr

/-- STORAGE_KEYS: the storage key used for each channel. -/
def STORAGE_KEYS : Channel → String
  | .chat => "chat_state"
  | .solver => "solver_state"
  | .question => "question_state"
  | .research => "research_state"
  | .ideagen => "ideagen_state"

/-- EXCLUDE_FIELDS: the runtime-only fields excluded from persistence for
each channel. -/
def EXCLUDE_FIELDS : Channel → List String
  | .chat => ["isLoading", "currentStage"]
  | .solver => ["isSolving", "logs", "agentStatus", "tokenStats", "progress"]
  | .question => ["logs", "progress", "agentStatus", "tokenStats", "uploadedFile"]
  | .research => ["status", "logs", "progress"]
  | .ideagen => ["isGenerating", "progress"]

/-- The guide session hook persists its SessionState with a locally
declared, empty exclusion list (GUIDE_SESSION_EXCLUDE), not the
EXCLUDE_FIELDS.GUIDE entry of the persistence library. -/
def GUIDE_SESSION_EXCLUDE : List String := []

/-!
Section: Default channel states (GlobalContext default state constants)

Each DEFAULT_..._STATE record transcribes the corresponding constant of the
GlobalContext provider field by field; explicit undefined initializers in
the source appear as undef entries.
-/

def DEFAULT_SOLVER_STATE : JsRecord :=
  [("sessionId", .null),
   ("isSolving", .bool false),
   ("logs", .arr []),
   ("messages", .arr []),
   ("question", .str ""),
   ("selectedKb", .str ""),
   ("agentStatus", .obj
     [("InvestigateAgent", .str "pending"),
      ("NoteAgent", .str "pending"),
      ("ManagerAgent", .str "pending"),
      ("SolveAgent", .str "pending"),
      ("ToolAgent", .str "pending"),
      ("ResponseAgent", .str "pending"),
      ("PrecisionAnswerAgent", .str "pending")]),
   ("tokenStats", .obj
     [("model", .str "Unknown"), ("calls", .num 0), ("tokens", .num 0),
      ("input_tokens", .num 0), ("output_tokens", .num 0), ("cost", .num 0)]),
   ("progress", .obj [("stage", .null), ("progress", .obj [])])]

def DEFAULT_QUESTION_STATE : JsRecord :=
  [("step", .str "config"),
   ("mode", .str "knowledge"),
   ("logs", .arr []),
   ("results", .arr []),
   ("topic", .str ""),
   ("difficulty", .str "medium"),
   ("type", .str "choice"),
   ("count", .num 1),
   ("selectedKb", .str ""),
   ("progress", .obj
     [("stage", .null), ("progress", .obj []), ("subFocuses", .arr []),
      ("activeQuestions", .arr []), ("completedQuestions", .num 0),
      ("failedQuestions", .num 0)]),
   ("agentStatus", .obj
     [("QuestionGenerationAgent", .str "pending"),
      ("ValidationWorkflow", .str "pending"),
      ("RetrievalTool", .str "pending")]),
   ("tokenStats", .obj
     [("model", .str "Unknown"), ("calls", .num 0), ("tokens", .num 0),
      ("input_tokens", .num 0), ("output_tokens", .num 0), ("cost", .num 0)]),
   ("uploadedFile", .null),
   ("paperPath", .str "")]

def DEFAULT_RESEARCH_STATE : JsRecord :=
  [("status", .str "idle"),
   ("logs", .arr []),
   ("report", .null),
   ("topic", .str ""),
   ("selectedKb", .str ""),
   ("progress", .obj
     [("stage", .null), ("status", .str ""), ("executionMode", .undef),
      ("totalBlocks", .undef), ("currentBlock", .undef),
      ("currentSubTopic", .undef), ("currentBlockId", .undef),
      ("iterations", .undef), ("maxIterations", .undef),
      ("toolsUsed", .undef), ("currentTool", .undef),
      ("currentQuery", .undef), ("currentRationale", .undef),
      ("queriesUsed", .undef), ("activeTasks", .undef),
      ("activeCount", .undef), ("completedCount", .undef),
      ("keptBlocks", .undef), ("sections", .undef),
      ("wordCount", .undef), ("citations", .undef)])]

def DEFAULT_IDEAGEN_STATE : JsRecord :=
  [("isGenerating", .bool false),
   ("generationStatus", .str ""),
   ("generatedIdeas", .arr []),
   ("progress", .null)]

def DEFAULT_CHAT_STATE : JsRecord :=
  [("sessionId", .null),
   ("messages", .arr []),
   ("isLoading", .bool false),
   ("selectedKb", .str ""),
   ("enableRag", .bool false),
   ("enableWebSearch", .bool false),
   ("currentStage", .null)]

/-- The default state each channel starts from at process start and that
the restore effect merges the persisted snapshot into. -/
def DEFAULT_STATE : Channel → JsRecord
  | .chat => DEFAULT_CHAT_STATE
  | .solver => DEFAULT_SOLVER_STATE
  | .question => DEFAULT_QUESTION_STATE
  | .research => DEFAULT_RESEARCH_STATE
  | .ideagen => DEFAULT_IDEAGEN_STATE

/-!
Section: The one-time hydration restore pass (GlobalProvider restore effect)

The effect runs once on mount, while each channel state still holds its
default; a persisted snapshot with at least one key is merged into the
default with the channel exclusion list. Only the research branch carries
an explicit running-to-idle rewrite after the merge.
-/

/-- The restore branch shared by the solver, question, ideagen and chat
channels: skip empty snapshots, otherwise merge with the defaults. -/
def restorePlain (dflt : JsRecord) (exclude : List String) (p : JsRecord) : JsRecord :=
  if p.length = 0 then dflt
  else mergeWithDefaults (some p) dflt exclude

/-- The research restore branch, including the explicit rewrite of a
restored running status back to idle. -/
def restoreResearch (p : JsRecord) : JsRecord :=
  if p.length = 0 then DEFAULT_RESEARCH_STATE
  else
    let merged := mergeWithDefaults (some p) DEFAULT_RESEARCH_STATE (EXCLUDE_FIELDS .research)
    if (getField merged "status").strictEqStr "running" then
      setField merged "status" (.str "idle")
    else merged

/-- The state of a channel after the restore pass applied a persisted
snapshot p. -/
def restoreChannel : Channel → JsRecord → JsRecord
  | .research, p => restoreResearch p
  | c, p => restorePlain (DEFAULT_STATE c) (EXCLUDE_FIELDS c) p

/-!
Section: Debounced save paths (GlobalProvider saveSolverState and friends,
plus the guide hook saveSessionState)
-/

/-- The body of a GlobalContext debounced save closure: when the debounce
timer fires it re-checks the hydration latch, filters the excluded fields
out of the state and writes the wrapped snapshot under the channel key. -/
def debouncedSaveBody (c : Channel) (hydratedAtFire : Bool) (state : JsRecord)
    (store : Store) (now : Int) (quotaExceeded : Bool) : Store :=
  if !hydratedAtFire then store
  else
    saveToStorage store (STORAGE_KEYS c)
      (.obj (persistState state (EXCLUDE_FIELDS c))) now quotaExceeded

/-- The auto-save effect for a channel state change: the hydration latch
is consulted before the debounced save is even scheduled, and again inside
the debounced body when the timer later fires. The two Booleans are the
latch value at those two instants. -/
def saveOnStateChange (c : Channel) (hydratedAtChange hydratedAtFire : Bool)
    (state : JsRecord) (store : Store) (now : Int) (quotaExceeded : Bool) : Store :=
  if hydratedAtChange then debouncedSaveBody c hydratedAtFire state store now quotaExceeded
  else store

/-- The guide hook auto-save path: the effect checks the hydration latch
before invoking the debounced save; the debounced body itself persists the
session state with the (empty) guide exclusion list unconditionally. -/
def guideSaveOnStateChange (hydratedAtChange : Bool) (state : JsRecord)
    (store : Store) (now : Int) (quotaExceeded : Bool) : Store :=
  if hydratedAtChange then
    saveToStorage store "guide_session"
      (.obj (persistState state GUIDE_SESSION_EXCLUDE)) now quotaExceeded
  else store

/-!
Section: Supporting lemmas for the persistence claims
-/

theorem not_mem_keysOf_persistState (state : JsRecord) (exclude : List String)
    (k : String) (hk : k ∈ exclude) :
    k ∉ keysOf (persistState state exclude) := by
  rw [keysOf_persistState]
  intro hmem
  have hp := List.of_mem_filter hmem
  simp [List.elem_eq_mem, hk] at hp

theorem mem_keysOf_of_not_isUndef (r : JsRecord) (k : String)
    (h : ¬ (getField r k).isUndef = true) : k ∈ keysOf r := by
  induction r with
  | nil => simp [getField, JsVal.isUndef] at h
  | cons kv rest ih =>
      obtain ⟨k1, v1⟩ := kv
      by_cases he : k1 = k
      · simp [keysOf, he]
      · rw [keysOf_cons, List.mem_cons]
        right
        apply ih
        simpa [he] using h

theorem nodup_keysOf_persistState (state : JsRecord) (exclude : List String)
    (hnd : (keysOf state).Nodup) :
    (keysOf (persistState state exclude)).Nodup := by
  rw [keysOf_persistState]
  exact hnd.filter _

theorem mem_keysOf_persistState (state : JsRecord) (exclude : List String)
    (k : String) (hmem : k ∈ keysOf state) (hk : k ∉ exclude) :
    k ∈ keysOf (persistState state exclude) := by
  rw [keysOf_persistState]
  refine List.mem_filter.mpr ⟨hmem, ?_⟩
  simp [List.elem_eq_mem, hk]

/-- C4: for every state record S, default record D and exclusion list,
merging the persisted (filtered) copy of S back over D yields the default
value on every excluded field and the original value of S on every
non-excluded field that is not undefined in S. The nodup hypothesis
records that a JavaScript object never enumerates a key twice. -/
theorem merge_persist_roundtrip (S D : JsRecord) (excl : List String) (k : String)
    (hnd : (keysOf S).Nodup) :
    (k ∈ excl →
      getField (mergeWithDefaults (some (persistState S excl)) D excl) k = getField D k)
  ∧ (k ∉ excl → ¬ (getField S k).isUndef = true →
      getField (mergeWithDefaults (some (persistState S excl)) D excl) k = getField S k) := by
  constructor
  · intro hk
    exact getField_mergeFold_excluded _ _ _ _ hk
  · intro hk hu
    have hSmem : k ∈ keysOf S := mem_keysOf_of_not_isUndef S k hu
    have hpmem : k ∈ keysOf (persistState S excl) := mem_keysOf_persistState S excl k hSmem hk
    have hpget : getField (persistState S excl) k = getField S k :=
      getField_persistState_notExcluded S excl k hk
    have hpnd := nodup_keysOf_persistState S excl hnd
    have hfold := getField_mergeFold_present (persistState S excl) D excl k hpnd hpmem hk
      (by rw [hpget]; exact hu)
    exact hfold.trans hpget

/-- Witness for C4 at a concrete state, default and exclusion list. -/
theorem merge_persist_roundtrip_witness :
    (keysOf [("isLoading", JsVal.bool true), ("sessionId", JsVal.str "s1")]).Nodup
  ∧ getField (mergeWithDefaults
      (some (persistState [("isLoading", JsVal.bool true), ("sessionId", JsVal.str "s1")]
        ["isLoading"]))
      DEFAULT_CHAT_STATE ["isLoading"]) "isLoading" = getField DEFAULT_CHAT_STATE "isLoading"
  ∧ getField (mergeWithDefaults
      (some (persistState [("isLoading", JsVal.bool true), ("sessionId", JsVal.str "s1")]
        ["isLoading"]))
      DEFAULT_CHAT_STATE ["isLoading"]) "sessionId" = JsVal.str "s1" := by
  refine ⟨by decide, ?_, ?_⟩
  · exact (merge_persist_roundtrip
      [("isLoading", JsVal.bool true), ("sessionId", JsVal.str "s1")]
      DEFAULT_CHAT_STATE ["isLoading"] "isLoading" (by decide)).1 (by decide)
  · have h := (merge_persist_roundtrip
      [("isLoading", JsVal.bool true), ("sessionId", JsVal.str "s1")]
      DEFAULT_CHAT_STATE ["isLoading"] "sessionId" (by decide)).2
      (by decide) (by simp [getField, JsVal.isUndef])
    rw [h]
    simp [getField]

/-- C5: for every channel and every in-memory state, the partial snapshot
handed to saveToStorage by the debounced save path contains no key of that
channel exclusion set, even when the state contains such keys. -/
theorem save_excludes_runtime_fields (c : Channel) (state : JsRecord) (k : String)
    (hk : k ∈ EXCLUDE_FIELDS c) :
    k ∉ keysOf (persistState state (EXCLUDE_FIELDS c)) :=
  not_mem_keysOf_persistState state (EXCLUDE_FIELDS c) k hk

/-- Witness for C5: the solver channel never persists its isSolving flag. -/
theorem save_excludes_runtime_fields_witness :
    "isSolving" ∈ EXCLUDE_FIELDS .solver
  ∧ "isSolving" ∉ keysOf (persistState
      [("isSolving", JsVal.bool true), ("question", JsVal.str "q")]
      (EXCLUDE_FIELDS .solver)) :=
  ⟨by decide, save_excludes_runtime_fields .solver
    [("isSolving", JsVal.bool true), ("question", JsVal.str "q")] "isSolving" (by decide)⟩

/-- C3: a state change that occurs before the hydration latch is set
produces no store write: the auto-save effect does not even schedule the
debounced save, and the debounced body itself returns with the store
untouched when the latch is still unset at fire time; the guide hook path
is likewise gated at scheduling time. -/
theorem hydration_gate_blocks_prehydration_writes (c : Channel)
    (hydratedAtFire : Bool) (state : JsRecord) (store : Store) (now : Int)
    (quotaExceeded : Bool) :
    saveOnStateChange c false hydratedAtFire state store now quotaExceeded = store
  ∧ debouncedSaveBody c false state store now quotaExceeded = store
  ∧ guideSaveOnStateChange false state store now quotaExceeded = store := by
  refine ⟨rfl, ?_, rfl⟩
  simp [debouncedSaveBody]

/-- C9: loadFromStorage returns the caller-supplied default, and never
throws, whenever the entry is absent, empty, not parseable, or carries a
version tag other than STORAGE_VERSION; a well-versioned wrapper yields
its data; and saveToStorage absorbs a quota failure, leaving the store
unchanged instead of propagating the error. -/
theorem load_save_degrade_to_default (store : Store) (key : String) (d : JsVal) :
    (getItem store (prefixedKey key) = none → loadFromStorage store key d = d)
  ∧ (getItem store (prefixedKey key) = some .empty → loadFromStorage store key d = d)
  ∧ (getItem store (prefixedKey key) = some .invalid → loadFromStorage store key d = d)
  ∧ (∀ w, getItem store (prefixedKey key) = some (.valid w) →
      (w.get "version").strictEqNum STORAGE_VERSION = false →
      loadFromStorage store key d = d)
  ∧ (∀ w, getItem store (prefixedKey key) = some (.valid w) →
      (w.get "version").strictEqNum STORAGE_VERSION = true →
      loadFromStorage store key d = w.get "data")
  ∧ (∀ v now, saveToStorage store key v now true = store) := by
  refine ⟨?_, ?_, ?_, ?_, ?_, ?_⟩
  · intro h; simp [loadFromStorage, h]
  · intro h; simp [loadFromStorage, h]
  · intro h; simp [loadFromStorage, h]
  · intro w h hv; simp [loadFromStorage, h, hv]
  · intro w h hv; simp [loadFromStorage, h, hv]
  · intro v now; simp [saveToStorage]

/-- Witness for C9 at concrete stores: a missing entry, a corrupt entry,
a version-mismatched wrapper, a good wrapper, and a failing save. -/
theorem load_save_degrade_to_default_witness :
    loadFromStorage [] "chat_state" .null = .null
  ∧ loadFromStorage [(prefixedKey "chat_state", .invalid)] "chat_state" .null = .null
  ∧ loadFromStorage
      [(prefixedKey "chat_state", .valid (.obj [("version", .num 2), ("data", .str "x")]))]
      "chat_state" .null = .null
  ∧ loadFromStorage
      [(prefixedKey "chat_state", .valid (.obj [("version", .num 1), ("data", .str "x")]))]
      "chat_state" .null = .str "x"
  ∧ saveToStorage [] "chat_state" (.str "x") 7 true = [] := by
  refine ⟨?_, ?_, ?_, ?_, ?_⟩
  · exact (load_save_degrade_to_default [] "chat_state" .null).1 rfl
  · exact (load_save_degrade_to_default
      [(prefixedKey "chat_state", .invalid)] "chat_state" .null).2.2.1 rfl
  · exact (load_save_degrade_to_default
      [(prefixedKey "chat_state", .valid (.obj [("version", .num 2), ("data", .str "x")]))]
      "chat_state" .null).2.2.2.1 _ rfl (by simp [JsVal.get, getField, JsVal.strictEqNum, STORAGE_VERSION])
  · have h := (load_save_degrade_to_default
      [(prefixedKey "chat_state", .valid (.obj [("version", .num 1), ("data", .str "x")]))]
      "chat_state" .null).2.2.2.2.1 _ rfl (by simp [JsVal.get, getField, JsVal.strictEqNum, STORAGE_VERSION])
    rw [h]
    simp [JsVal.get, getField]
  · exact (load_save_degrade_to_default [] "chat_state" .null).2.2.2.2.2 (.str "x") 7

theorem isUndef_eq_true_iff (v : JsVal) : v.isUndef = true ↔ v = .undef := by
  cases v <;> simp [JsVal.isUndef]

/-- C10: saving a value and reading it back returns its JSON round trip:
the version tag written by saveToStorage is the same STORAGE_VERSION that
loadFromStorage checks, so a freshly saved value is never rejected as a
version mismatch, and the wrapped data flows back to the caller. -/
theorem save_then_load_roundtrip (store : Store) (key : String) (v : JsVal)
    (now : Int) (d : JsVal) :
    loadFromStorage (saveToStorage store key v now false) key d = jsonNorm v := by
  unfold saveToStorage
  simp only [Bool.false_eq_true, if_false]
  unfold loadFromStorage
  rw [getItem_setItem_self]
  by_cases hv : v.isUndef = true
  · rw [isUndef_eq_true_iff] at hv
    subst hv
    simp [jsonNorm, jsonNormFields, JsVal.isUndef, JsVal.get, getField,
      JsVal.strictEqNum, STORAGE_VERSION]
  · rw [Bool.not_eq_true] at hv
    simp [jsonNorm, jsonNormFields, hv, JsVal.get, getField,
      JsVal.strictEqNum, STORAGE_VERSION]

/-!
Section: The chat channel session (GlobalProvider sendChatMessage)

One call to sendChatMessage opens one WebSocket and installs handlers that
close over a fresh assistantMessage accumulator. The context below is
that closure state together with the channel state and the sessionId ref.
-/

/-- One entry of the chat transcript (HomeChatMessage). The optional
isStreaming flag reads as false when absent, matching the truthiness test
in the stream handler; sources carries the attached citation payload. -/
structure HomeChatMessage where
  role : String
  content : String
  sources : Option JsVal := none
  isStreaming : Bool := false
  deriving Repr

/-- The chat channel state (ChatState). -/
structure ChatState where
  sessionId : Option String
  messages : List HomeChatMessage
  isLoading : Bool
  selectedKb : String
  enableRag : Bool
  enableWebSearch : Bool
  currentStage : Option String
  deriving Repr

/-- DEFAULT_CHAT_STATE as a typed record. -/
def defaultChatState : ChatState :=
  { sessionId := none, messages := [], isLoading := false, selectedKb := "",
    enableRag := false, enableWebSearch := false, currentStage := none }

/-- The mutable context visible to one chat WebSocket: the
assistantMessage accumulator captured by the onmessage closure, the
channel state, and the sessionIdRef. -/
structure ChatWsCtx where
  assistantMessage : String
  state : ChatState
  sessionIdRef : Option String
  deriving Repr

/-- The decoded inbound chat events dispatched by the onmessage switch. -/
inductive ChatEvent where
  | session (session_id : String) : ChatEvent
  | status (stage : Option String) (message : Option String) : ChatEvent
  | stream (content : String) : ChatEvent
  | sources (rag : JsVal) (web : JsVal) : ChatEvent
  | result (content : String) : ChatEvent
  | error (message : String) : ChatEvent

/-- JavaScript a || b on optional strings: an absent or empty left operand
falls through to the right one. -/
def jsOrStr : Option String → Option String → Option String
  | some s, b => if s = "" then b else some s
  | none, b => b

/-- The truthiness of message.trim() negated: a message consisting solely
of whitespace trims to the empty, falsy string. -/
def isBlank (s : String) : Bool := s.toList.all (fun ch => ch.isWhitespace)

/-- sendChatMessage up to the point where the WebSocket is created: the
guard rejects blank messages and an already-loading channel; otherwise the
user message is appended, the loading flag set, and a fresh (empty)
assistantMessage accumulator captured. -/
def sendChatMessage (message : String) (prev : ChatState) (ref : Option String) :
    Option ChatWsCtx :=
  if isBlank message = true ∨ prev.isLoading = true then none
  else
    some
      { assistantMessage := ""
        state :=
          { prev with
            isLoading := true
            currentStage := some "connecting"
            messages := prev.messages ++ [{ role := "user", content := message }] }
        sessionIdRef := ref }

/-- The chat ws.onmessage dispatch, one branch per event type. The stream
branch either rewrites the trailing streaming assistant entry or appends a
new one; result finalizes the trailing assistant entry and clears the
loading state; error appends a visible error entry and clears the loading
state. -/
def chatOnMessage (c : ChatWsCtx) : ChatEvent → ChatWsCtx
  | .session sid =>
      { c with sessionIdRef := some sid, state := { c.state with sessionId := some sid } }
  | .status stage message =>
      { c with state := { c.state with currentStage := jsOrStr stage message } }
  | .stream content =>
      let acc := c.assistantMessage ++ content
      let msgs := c.state.messages
      let newMsgs :=
        match msgs.getLast? with
        | some last =>
            if last.role = "assistant" ∧ last.isStreaming = true then
              msgs.dropLast ++ [{ last with content := acc }]
            else msgs ++ [{ role := "assistant", content := acc, isStreaming := true }]
        | none => msgs ++ [{ role := "assistant", content := acc, isStreaming := true }]
      { c with
        assistantMessage := acc
        state := { c.state with messages := newMsgs, currentStage := some "generating" } }
  | .sources rag web =>
      let msgs := c.state.messages
      let newMsgs :=
        match msgs.getLast? with
        | some last =>
            if last.role = "assistant" then
              msgs.dropLast ++ [{ last with sources := some (.obj [("rag", rag), ("web", web)]) }]
            else msgs
        | none => msgs
      { c with state := { c.state with messages := newMsgs } }
  | .result content =>
      let msgs := c.state.messages
      let newMsgs :=
        match msgs.getLast? with
        | some last =>
            if last.role = "assistant" then
              msgs.dropLast ++ [{ last with content := content, isStreaming := false }]
            else msgs
        | none => msgs
      { c with
        state :=
          { c.state with messages := newMsgs, isLoading := false, currentStage := none } }
  | .error message =>
      { c with
        state :=
          { c.state with
            isLoading := false
            currentStage := none
            messages :=
              c.state.messages ++ [{ role := "assistant", content := "Error: " ++ message }] } }

/-- The chat ws.onclose handler: clears the loading state (the ref cleanup
does not touch the channel state). -/
def chatOnClose (c : ChatWsCtx) : ChatWsCtx :=
  { c with state := { c.state with isLoading := false, currentStage := none } }

/-- Events processed strictly in arrival order on one socket. -/
def runChat (c : ChatWsCtx) (evs : List ChatEvent) : ChatWsCtx :=
  evs.foldl chatOnMessage c

/-- The concatenation of stream deltas in receipt order. -/
def concatDeltas : List String → String
  | [] => ""
  | d :: rest => d ++ concatDeltas rest

/-- The Scenario A event sequence and the resulting context: start the
chat with hello, then session, two stream deltas and the final result,
after which the manager closes the socket. -/
def scenarioAFinal : Option ChatWsCtx :=
  (sendChatMessage "hello" defaultChatState none).map
    (fun c =>
      chatOnClose (runChat c
        [.session "s1", .stream "Hi", .stream " there", .result "Hi there"]))

theorem stream_run_inv (ds : List String) (c : ChatWsCtx) (last : HomeChatMessage)
    (hl : c.state.messages.getLast? = some last)
    (hrole : last.role = "assistant") (hstr : last.isStreaming = true)
    (hcontent : last.content = c.assistantMessage) :
    (runChat c (ds.map .stream)).assistantMessage = c.assistantMessage ++ concatDeltas ds
  ∧ (runChat c (ds.map .stream)).state.messages.getLast? =
      some { last with content := c.assistantMessage ++ concatDeltas ds } := by
  induction ds generalizing c last with
  | nil =>
      refine ⟨(String.append_empty _).symm, ?_⟩
      rw [concatDeltas, String.append_empty, ← hcontent]
      exact hl
  | cons d rest ih =>
      have hstep : chatOnMessage c (.stream d) =
          { c with
            assistantMessage := c.assistantMessage ++ d
            state :=
              { c.state with
                messages := c.state.messages.dropLast ++
                  [{ last with content := c.assistantMessage ++ d }]
                currentStage := some "generating" } } := by
        rw [chatOnMessage]
        rw [hl]
        simp [hrole, hstr]
      have hlast2 : (chatOnMessage c (.stream d)).state.messages.getLast? =
          some { last with content := c.assistantMessage ++ d } := by
        rw [hstep]
        exact List.getLast?_concat _
      have := ih (chatOnMessage c (.stream d)) { last with content := c.assistantMessage ++ d }
        hlast2 hrole hstr (by rw [hstep])
      rw [runChat] at this ⊢
      rw [List.map_cons, List.foldl_cons, hstep]
      rw [hstep] at this
      simpa [concatDeltas, String.append_assoc] using this

theorem stream_run_fresh (c : ChatWsCtx) (ds : List String) (hds : ds ≠ [])
    (hacc : c.assistantMessage = "")
    (hlast : ∀ m, c.state.messages.getLast? = some m →
      ¬ (m.role = "assistant" ∧ m.isStreaming = true)) :
    (runChat c (ds.map .stream)).assistantMessage = concatDeltas ds
  ∧ ((runChat c (ds.map .stream)).state.messages.getLast?).map
      (fun m => (m.role, m.content, m.isStreaming)) =
      some ("assistant", concatDeltas ds, true) := by
  cases ds with
  | nil => exact absurd rfl hds
  | cons d rest =>
      have hstep : chatOnMessage c (.stream d) =
          { c with
            assistantMessage := c.assistantMessage ++ d
            state :=
              { c.state with
                messages := c.state.messages ++
                  [{ role := "assistant", content := c.assistantMessage ++ d,
                     isStreaming := true }]
                currentStage := some "generating" } } := by
        rw [chatOnMessage]
        cases hl : c.state.messages.getLast? with
        | none => simp
        | some m => simp [hlast m hl]
      have hlast2 : (chatOnMessage c (.stream d)).state.messages.getLast? =
          some { role := "assistant", content := c.assistantMessage ++ d,
                 isStreaming := true } := by
        rw [hstep]
        exact List.getLast?_concat _
      have hinv := stream_run_inv rest (chatOnMessage c (.stream d))
        { role := "assistant", content := c.assistantMessage ++ d, isStreaming := true }
        hlast2 rfl rfl (by rw [hstep])
      rw [runChat] at hinv ⊢
      rw [List.map_cons, List.foldl_cons]
      rw [hstep] at hinv
      obtain ⟨h1, h2⟩ := hinv
      rw [hstep]
      constructor
      · rw [h1, hacc]
        simp [concatDeltas, String.append_assoc]
      · rw [h2, hacc]
        simp [concatDeltas, String.append_assoc]

/-- C6: Scenario A — starting a chat with hello and receiving session s1,
the stream deltas Hi and there, then the result, leaves sessionId s1, a
final transcript entry Hi there that is no longer streaming, and a
completed non-loading state (isLoading false, currentStage cleared); and
in general any nonempty sequence of stream events applied in receipt
order from a fresh accumulator yields a trailing streaming assistant
entry whose content is the concatenation of the deltas in that order. -/
theorem chat_scenarioA_and_stream_order :
    (scenarioAFinal.map (fun c => c.state.sessionId) = some (some "s1")
   ∧ scenarioAFinal.map (fun c => (c.state.messages.getLast?).map
        (fun m => (m.content, m.isStreaming))) = some (some ("Hi there", false))
   ∧ scenarioAFinal.map (fun c => (c.state.isLoading, c.state.currentStage)) =
        some (false, none))
  ∧ (∀ (c : ChatWsCtx) (ds : List String), ds ≠ [] →
      c.assistantMessage = "" →
      (∀ m, c.state.messages.getLast? = some m →
        ¬ (m.role = "assistant" ∧ m.isStreaming = true)) →
      ((runChat c (ds.map .stream)).state.messages.getLast?).map
        (fun m => (m.role, m.content, m.isStreaming)) =
        some ("assistant", concatDeltas ds, true)) := by
  constructor
  · exact ⟨rfl, rfl, rfl⟩
  · intro c ds hds hacc hlast
    exact (stream_run_fresh c ds hds hacc hlast).2

/-- Witness for C6 applying the ordering part at a concrete context. -/
theorem chat_scenarioA_and_stream_order_witness :
    ((runChat
        { assistantMessage := ""
          state := { defaultChatState with
            messages := [{ role := "user", content := "hello" }] }
          sessionIdRef := none }
        (["Hi", " there"].map ChatEvent.stream)).state.messages.getLast?).map
      (fun m => (m.role, m.content, m.isStreaming)) =
      some ("assistant", concatDeltas ["Hi", " there"], true) := by
  refine chat_scenarioA_and_stream_order.2 _ _ (by simp) rfl ?_
  intro m hm
  simp only [List.getLast?] at hm
  cases hm
  simp

/-!
Section: Restore-pass properties (claim C2)
-/

theorem getField_restorePlain_excluded (dflt : JsRecord) (excl : List String)
    (p : JsRecord) (k : String) (hk : k ∈ excl) :
    getField (restorePlain dflt excl p) k = getField dflt k := by
  unfold restorePlain
  by_cases hlen : p.length = 0
  · rw [if_pos hlen]
  · rw [if_neg hlen]
    exact getField_mergeFold_excluded p dflt excl k hk

theorem getField_restoreResearch_status (p : JsRecord) :
    getField (restoreResearch p) "status" = .str "idle" := by
  unfold restoreResearch
  by_cases hlen : p.length = 0
  · rw [if_pos hlen]
    rfl
  · rw [if_neg hlen]
    have hm : getField (mergeWithDefaults (some p) DEFAULT_RESEARCH_STATE
        (EXCLUDE_FIELDS .research)) "status" = getField DEFAULT_RESEARCH_STATE "status" :=
      getField_mergeFold_excluded p _ _ _ (by decide)
    have hidle : getField DEFAULT_RESEARCH_STATE "status" = .str "idle" := rfl
    simp only [hm, hidle]
    rw [if_neg (by decide)]
    exact hm.trans hidle

/-- C2 (amended): after the one-time restore merge the solver, research,
chat and ideagen channels always carry a non-running lifecycle tag, for
every possible persisted snapshot: their running flags are in the
exclusion sets (and research additionally rewrites a running status), so
the defaults win. The question channel is the exception recorded by the
counterexample: its step field is persisted and restored verbatim. -/
theorem restore_resets_running_flags (p : JsRecord) :
    getField (restoreChannel .solver p) "isSolving" = .bool false
  ∧ getField (restoreChannel .research p) "status" = .str "idle"
  ∧ getField (restoreChannel .chat p) "isLoading" = .bool false
  ∧ getField (restoreChannel .chat p) "currentStage" = .null
  ∧ getField (restoreChannel .ideagen p) "isGenerating" = .bool false := by
  refine ⟨?_, getField_restoreResearch_status p, ?_, ?_, ?_⟩
  · exact getField_restorePlain_excluded _ _ _ _ (by decide)
  · exact getField_restorePlain_excluded _ _ _ _ (by decide)
  · exact getField_restorePlain_excluded _ _ _ _ (by decide)
  · exact getField_restorePlain_excluded _ _ _ _ (by decide)

/-- Counterexample to C2 as stated: the question channel step field is not
in the question exclusion set and the restore pass carries no rewrite for
it, so a snapshot persisted mid-generation restores with the actively
running step generating instead of the default config. -/
theorem restore_question_keeps_generating :
    getField (restoreChannel .question [("step", JsVal.str "generating")]) "step"
      = JsVal.str "generating"
  ∧ getField DEFAULT_QUESTION_STATE "step" = JsVal.str "config" :=
  ⟨rfl, rfl⟩

/-!
Section: Initiating frames (ws.onopen handlers of the start functions)
-/

/-- A nullable string as serialized into an outbound frame. -/
def optStrVal : Option String → JsVal
  | none => .null
  | some s => .str s

/-- An optional number field; an absent argument serializes as undefined
and is dropped by JSON.stringify. -/
def optNumVal : Option Int → JsVal
  | none => .undef
  | some n => .num n

/-- The frame sent by startSolver on open: the question, the knowledge
base, and the current session id from the ref (or null). -/
def solverInitFrame (question kb : String) (sessionIdRef : Option String) : JsRecord :=
  [("question", .str question), ("kb_name", .str kb),
   ("session_id", optStrVal sessionIdRef)]

/-- The frame sent by the chat socket on open: message, the current
session id from the ref (or null), history, and the retrieval flags. -/
def chatInitFrame (message : String) (sessionIdRef : Option String)
    (history : List (String × String)) (kb : String)
    (enableRag enableWebSearch : Bool) : JsRecord :=
  [("message", .str message),
   ("session_id", optStrVal sessionIdRef),
   ("history", .arr (history.map (fun h => .obj [("role", .str h.1), ("content", .str h.2)]))),
   ("kb_name", .str kb),
   ("enable_rag", .bool enableRag),
   ("enable_web_search", .bool enableWebSearch)]

/-- The frame sent by startQuestionGen on open. -/
def questionInitFrame (topic diff qtype : String) (count : Int) (kb : String) : JsRecord :=
  [("requirement", .obj
     [("knowledge_point", .str topic), ("difficulty", .str diff),
      ("question_type", .str qtype),
      ("additional_requirements", .str "Ensure clarity and academic rigor.")]),
   ("count", .num count),
   ("kb_name", .str kb)]

/-- The frame sent by startResearch on open. -/
def researchInitFrame (topic kb planMode : String) (enabledTools : List String)
    (skipRephrase : Bool) : JsRecord :=
  [("topic", .str topic), ("kb_name", .str kb), ("plan_mode", .str planMode),
   ("enabled_tools", .arr (enabledTools.map .str)),
   ("skip_rephrase", .bool skipRephrase)]

/-- The frame sent by startMimicQuestionGen on open in upload mode. -/
def mimicUploadInitFrame (pdfData pdfName kb : String) (maxQuestions : Option Int) : JsRecord :=
  [("mode", .str "upload"), ("pdf_data", .str pdfData), ("pdf_name", .str pdfName),
   ("kb_name", .str kb), ("max_questions", optNumVal maxQuestions)]

/-- The frame sent by startMimicQuestionGen on open in parsed mode. -/
def mimicParsedInitFrame (paperPath kb : String) (maxQuestions : Option Int) : JsRecord :=
  [("mode", .str "parsed"), ("paper_path", .str paperPath),
   ("kb_name", .str kb), ("max_questions", optNumVal maxQuestions)]

/-- Counterexample to C7 as stated: the research initiating frame carries
no session_id field at all, so not every channel transmits one. -/
theorem research_initFrame_lacks_sessionId :
    "session_id" ∉ keysOf (researchInitFrame "agents" "kb" "medium" ["RAG"] false) := by
  decide

/-- C7 (amended): the solver and chat initiating frames always carry a
session_id field equal to the channel current session id, or null to
start fresh; the question, research and mimic initiating frames carry no
session_id field. -/
theorem initFrame_sessionId_policy (q kb msg topic diff qtype planMode : String)
    (pdfData pdfName paperPath : String) (sid : Option String)
    (history : List (String × String)) (eR eW : Bool) (count : Int)
    (tools : List String) (skip : Bool) (maxQ : Option Int) :
    getField (solverInitFrame q kb sid) "session_id" = optStrVal sid
  ∧ getField (chatInitFrame msg sid history kb eR eW) "session_id" = optStrVal sid
  ∧ "session_id" ∉ keysOf (questionInitFrame topic diff qtype count kb)
  ∧ "session_id" ∉ keysOf (researchInitFrame topic kb planMode tools skip)
  ∧ "session_id" ∉ keysOf (mimicUploadInitFrame pdfData pdfName kb maxQ)
  ∧ "session_id" ∉ keysOf (mimicParsedInitFrame paperPath kb maxQ) := by
  refine ⟨rfl, rfl, ?_, ?_, ?_, ?_⟩ <;> simp [keysOf, questionInitFrame,
    researchInitFrame, mimicUploadInitFrame, mimicParsedInitFrame]

/-!
Section: Error events across channels (claim C8)
-/

/-- One diagnostic log line (LogEntry). -/
structure LogEntry where
  type : String
  content : String
  timestamp : Option Int := none
  level : Option String := none
  deriving Repr

/-- One solver transcript turn (ChatMessage). -/
structure ChatMessage where
  role : String
  content : String
  outputDir : Option String := none
  deriving Repr

/-- Token statistics (TokenStats); the cost field is kept integral since
no claim depends on fractional costs. -/
structure TokenStats where
  model : String
  calls : Int
  tokens : Int
  input_tokens : Int
  output_tokens : Int
  cost : Int
  deriving Repr

/-- Solver progress info; the inner payload object is kept opaque. -/
structure ProgressInfo where
  stage : Option String
  progress : JsRecord
  deriving Repr

/-- The solver channel state (SolverState). -/
structure SolverState where
  sessionId : Option String
  isSolving : Bool
  logs : List LogEntry
  messages : List ChatMessage
  question : String
  selectedKb : String
  agentStatus : List (String × String)
  tokenStats : TokenStats
  progress : ProgressInfo
  deriving Repr

/-- addSolverLog: append one entry to the solver diagnostic log. -/
def addSolverLog (log : LogEntry) (s : SolverState) : SolverState :=
  { s with logs := s.logs ++ [log] }

/-- JavaScript a || b || d over optional strings, where an absent or empty
operand falls through, as in (data.content || data.message ||
an unknown-error fallback). -/
def jsOr2 : Option String → String → String
  | some s, d => if s = "" then d else s
  | none, d => d

def jsOr3 (a b : Option String) (d : String) : String :=
  match a with
  | some s => if s = "" then jsOr2 b d else s
  | none => jsOr2 b d

/-- The solver onmessage error branch: append a visible error log entry
and clear the solving flag. -/
def solverErrorEvent (content message : Option String) (s : SolverState) : SolverState :=
  let s1 := addSolverLog
    { type := "error", content := "Error: " ++ jsOr3 content message "Unknown error" } s
  { s1 with isSolving := false }

/-- The research status vocabulary: idle, running or completed — the type
contains no error-denoting value. -/
inductive ResearchStatus where
  | idle : ResearchStatus
  | running : ResearchStatus
  | completed : ResearchStatus
  deriving DecidableEq, Repr

/-- One research query record (QueryInfo). -/
structure QueryInfo where
  query : String
  tool_type : String
  rationale : Option String := none
  iteration : Int
  deriving Repr

/-- One active parallel research task (ActiveTaskInfo). -/
structure ActiveTaskInfo where
  block_id : String
  sub_topic : String
  status : String
  iteration : Int
  max_iterations : Option Int := none
  current_tool : Option String := none
  current_query : Option String := none
  tools_used : Option (List String) := none
  deriving Repr

/-- Research progress (ResearchProgress). -/
structure ResearchProgress where
  stage : Option String
  status : String
  executionMode : Option String := none
  totalBlocks : Option Int := none
  currentBlock : Option Int := none
  currentSubTopic : Option String := none
  currentBlockId : Option String := none
  iterations : Option Int := none
  maxIterations : Option Int := none
  toolsUsed : Option (List String) := none
  currentTool : Option String := none
  currentQuery : Option String := none
  currentRationale : Option String := none
  queriesUsed : Option (List QueryInfo) := none
  activeTasks : Option (List ActiveTaskInfo) := none
  activeCount : Option Int := none
  completedCount : Option Int := none
  keptBlocks : Option Int := none
  sections : Option Int := none
  wordCount : Option Int := none
  citations : Option Int := none
  deriving Repr

/-- The research channel state (ResearchState). -/
structure ResearchState where
  status : ResearchStatus
  logs : List LogEntry
  report : Option String
  topic : String
  selectedKb : String
  progress : ResearchProgress
  deriving Repr

/-- DEFAULT_RESEARCH_STATE as a typed record. -/
def defaultResearchState : ResearchState :=
  { status := .idle, logs := [], report := none, topic := "", selectedKb := "",
    progress := { stage := none, status := "" } }

/-- addResearchLog: append one entry to the research log. -/
def addResearchLog (log : LogEntry) (s : ResearchState) : ResearchState :=
  { s with logs := s.logs ++ [log] }

/-- The research onmessage error branch: append a visible error log entry
and set the status back to idle. -/
def researchErrorEvent (content message : Option String) (s : ResearchState) : ResearchState :=
  let s1 := addResearchLog
    { type := "error", content := "Error: " ++ jsOr3 content message "Unknown error" } s
  { s1 with status := .idle }

/-- The question step vocabulary. -/
inductive QuestionStep where
  | config : QuestionStep
  | generating : QuestionStep
  | result : QuestionStep
  deriving DecidableEq, Repr

/-- Question progress info (QuestionProgressInfo); the inner counter
payload is kept opaque. -/
structure QuestionProgressInfo where
  stage : Option String
  progress : JsRecord
  subFocuses : Option (List JsVal) := none
  activeQuestions : Option (List String) := none
  completedQuestions : Option Int := none
  failedQuestions : Option Int := none
  extendedQuestions : Option Int := none
  deriving Repr

/-- The question channel state (QuestionState); the uploaded File handle
is opaque and carried by name. -/
structure QuestionState where
  step : QuestionStep
  mode : String
  logs : List LogEntry
  results : List JsVal
  topic : String
  difficulty : String
  type : String
  count : Int
  selectedKb : String
  progress : QuestionProgressInfo
  agentStatus : List (String × String)
  tokenStats : TokenStats
  uploadedFile : Option String
  paperPath : String
  deriving Repr

/-- addQuestionLog: append one entry to the question log. -/
def addQuestionLog (log : LogEntry) (s : QuestionState) : QuestionState :=
  { s with logs := s.logs ++ [log] }

/-- The knowledge-mode question onmessage error branch: append a visible
error log entry and reset the progress payload (the step is untouched). -/
def questionErrorEvent (content message : Option String) (s : QuestionState) : QuestionState :=
  let s1 := addQuestionLog
    { type := "error", content := "Error: " ++ jsOr3 content message "Unknown error" } s
  { s1 with progress := { stage := none, progress := [] } }

/-- A concrete mid-run research state used by the counterexample. -/
def runningResearchState : ResearchState :=
  { status := .running, logs := [], report := none, topic := "agents",
    selectedKb := "kb",
    progress := { stage := some "researching", status := "running block 1" } }

/-- Counterexample to C8 as stated: the research channel error handler
sets the status back to idle — the same value the channel starts in, with
no error-denoting member in its status vocabulary — rather than moving to
a terminal error status. -/
theorem research_error_status_is_idle :
    (researchErrorEvent (some "boom") none runningResearchState).status = ResearchStatus.idle
  ∧ defaultResearchState.status = ResearchStatus.idle :=
  ⟨rfl, rfl⟩

/-- C8 (amended): for every channel and every state, an error event
appends a user-visible error entry to the transcript or log and clears
the channel running flag where one exists (solver isSolving false,
research status idle, chat isLoading false with the stage cleared, and
the question channel resets its progress payload), and no handler throws;
no channel moves to a distinguished terminal error status. -/
theorem error_event_appends_entry_and_clears_running
    (content message : Option String) (s : SolverState) (r : ResearchState)
    (q : QuestionState) (c : ChatWsCtx) (msg : String) :
    (solverErrorEvent content message s).logs =
      s.logs ++ [{ type := "error", content := "Error: " ++ jsOr3 content message "Unknown error" }]
  ∧ (solverErrorEvent content message s).isSolving = false
  ∧ (researchErrorEvent content message r).logs =
      r.logs ++ [{ type := "error", content := "Error: " ++ jsOr3 content message "Unknown error" }]
  ∧ (researchErrorEvent content message r).status = ResearchStatus.idle
  ∧ (questionErrorEvent content message q).logs =
      q.logs ++ [{ type := "error", content := "Error: " ++ jsOr3 content message "Unknown error" }]
  ∧ (questionErrorEvent content message q).progress.stage = none
  ∧ (chatOnMessage c (.error msg)).state.messages =
      c.state.messages ++ [{ role := "assistant", content := "Error: " ++ msg }]
  ∧ (chatOnMessage c (.error msg)).state.isLoading = false
  ∧ (chatOnMessage c (.error msg)).state.currentStage = none :=
  ⟨rfl, rfl, rfl, rfl, rfl, rfl, rfl, rfl, rfl⟩

/-!
Section: Transport supersession (claim C1)

Every start function begins with the same prologue: close the socket held
in the channel ref, create a fresh WebSocket, store it in the ref, and
run the optimistic state update. The world below records the sockets a
channel has created, with a closed flag set when close() has been called
on the socket. Frame delivery models the WebSocket runtime rule that a
message received on a socket whose close() has been called (readyState
CLOSING or CLOSED, not OPEN) does not fire onmessage; the handlers
themselves carry no transport identity check, so that runtime rule plus
the close in the start prologue is all that protects the state.
-/

/-- The transport bookkeeping of one channel plus its reducer state. -/
structure ChannelWorld (σ : Type) where
  sockets : List (Nat × Bool)
  currentWs : Option Nat
  nextId : Nat
  state : σ
  deriving DecidableEq, Repr

/-- ws.close(): mark the socket as closing/closed. -/
def closeSocket (sockets : List (Nat × Bool)) (i : Nat) : List (Nat × Bool) :=
  sockets.map (fun p => if p.1 = i then (p.1, true) else p)

/-- The shared start prologue: close the current socket when the ref
holds one, create a fresh socket, store it in the ref, and apply the
optimistic state initialization. -/
def startChannel {σ : Type} (w : ChannelWorld σ) (initState : σ → σ) : ChannelWorld σ :=
  let sockets :=
    match w.currentWs with
    | some i => closeSocket w.sockets i
    | none => w.sockets
  { sockets := sockets ++ [(w.nextId, false)]
    currentWs := some w.nextId
    nextId := w.nextId + 1
    state := initState w.state }

/-- Whether close() has been called on socket i; an id the channel never
created counts as closed. -/
def socketClosed (sockets : List (Nat × Bool)) (i : Nat) : Bool :=
  match sockets.find? (fun p => p.1 == i) with
  | some p => p.2
  | none => true

/-- Delivery of one inbound frame on socket i: the runtime fires the
onmessage handler, and hence the state update, only when the socket is
not closed. -/
def deliverFrame {σ ε : Type} (reduce : σ → ε → σ) (w : ChannelWorld σ)
    (i : Nat) (ev : ε) : ChannelWorld σ :=
  if socketClosed w.sockets i then w
  else { w with state := reduce w.state ev }

/-- The ids of the sockets on which close() has not been called. -/
def liveSockets {σ : Type} (w : ChannelWorld σ) : List Nat :=
  (w.sockets.filter (fun p => !p.2)).map Prod.fst

/-- The channel transport invariant: socket ids are unique and below the
fresh counter, and every socket other than the one in the ref has been
closed. -/
def ChannelWF {σ : Type} (w : ChannelWorld σ) : Prop :=
  (w.sockets.map Prod.fst).Nodup
  ∧ (∀ p ∈ w.sockets, p.1 < w.nextId)
  ∧ (∀ p ∈ w.sockets, p.2 = false → w.currentWs = some p.1)

theorem keys_closeSocket (sockets : List (Nat × Bool)) (i : Nat) :
    (closeSocket sockets i).map Prod.fst = sockets.map Prod.fst := by
  induction sockets with
  | nil => rfl
  | cons p rest ih =>
      by_cases h : p.1 = i <;> simp [closeSocket, h] at ih ⊢ <;> exact ih

theorem open_after_start {σ : Type} (w : ChannelWorld σ) (hwf : ChannelWF w)
    (init : σ → σ) :
    ∀ p ∈ (startChannel w init).sockets, p.2 = false → p.1 = w.nextId := by
  intro p hp hopen
  unfold startChannel at hp
  rw [List.mem_append] at hp
  rcases hp with hp | hp
  · exfalso
    cases hcur : w.currentWs with
    | none =>
        rw [hcur] at hp
        have := hwf.2.2 p hp hopen
        rw [hcur] at this
        cases this
    | some i =>
        rw [hcur] at hp
        unfold closeSocket at hp
        rw [List.mem_map] at hp
        obtain ⟨q, hq, hpq⟩ := hp
        by_cases hqi : q.1 = i
        · rw [if_pos hqi] at hpq
          rw [← hpq] at hopen
          cases hopen
        · rw [if_neg hqi] at hpq
          subst hpq
          have := hwf.2.2 q hq hopen
          rw [hcur] at this
          exact hqi (Option.some_inj.mp this.symm)
  · rw [List.mem_singleton] at hp
    rw [hp]

theorem bounded_after_start {σ : Type} (w : ChannelWorld σ) (hwf : ChannelWF w)
    (init : σ → σ) :
    ∀ p ∈ (startChannel w init).sockets, p.1 < (startChannel w init).nextId := by
  intro p hp
  unfold startChannel at hp ⊢
  rw [List.mem_append] at hp
  rcases hp with hp | hp
  · have hmem : p.1 ∈ w.sockets.map Prod.fst := by
      cases hcur : w.currentWs with
      | none =>
          rw [hcur] at hp
          exact List.mem_map_of_mem _ hp
      | some i =>
          rw [hcur] at hp
          have := List.mem_map_of_mem Prod.fst hp
          rw [keys_closeSocket] at this
          exact this
    rw [List.mem_map] at hmem
    obtain ⟨q, hq, hpq⟩ := hmem
    have := hwf.2.1 q hq
    rw [hpq] at this
    exact Nat.lt_succ_of_lt this
  · rw [List.mem_singleton] at hp
    rw [hp]
    exact Nat.lt_succ_self _

theorem wf_after_start {σ : Type} (w : ChannelWorld σ) (hwf : ChannelWF w)
    (init : σ → σ) : ChannelWF (startChannel w init) := by
  refine ⟨?_, bounded_after_start w hwf init, ?_⟩
  · have hkeys : (startChannel w init).sockets.map Prod.fst =
        w.sockets.map Prod.fst ++ [w.nextId] := by
      unfold startChannel
      cases hcur : w.currentWs <;> simp [keys_closeSocket]
    rw [hkeys]
    rw [List.nodup_append]
    refine ⟨hwf.1, List.nodup_singleton _, ?_⟩
    intro a ha hb
    rw [List.mem_singleton] at hb
    subst hb
    rw [List.mem_map] at ha
    obtain ⟨q, hq, hqa⟩ := ha
    have := hwf.2.1 q hq
    rw [hqa] at this
    exact Nat.lt_irrefl _ this
  · intro p hp hopen
    have := open_after_start w hwf init p hp hopen
    unfold startChannel
    rw [this]

theorem liveSockets_after_start {σ : Type} (w : ChannelWorld σ) (hwf : ChannelWF w)
    (init : σ → σ) : liveSockets (startChannel w init) = [w.nextId] := by
  unfold liveSockets
  have hclosed : ∀ p ∈ (startChannel w init).sockets, p.2 = false → p.1 = w.nextId :=
    open_after_start w hwf init
  have hsplit : (startChannel w init).sockets =
      ((startChannel w init).sockets.dropLast) ++ [(w.nextId, false)] := by
    unfold startChannel
    cases w.currentWs <;> simp
  rw [hsplit, List.filter_append]
  have hnil : ((startChannel w init).sockets.dropLast).filter (fun p => !p.2) = [] := by
    rw [List.filter_eq_nil_iff]
    intro p hp
    have hpmem : p ∈ (startChannel w init).sockets := by
      rw [hsplit]
      exact List.mem_append_left _ hp
    by_cases hb : p.2 = false
    · have hid := hclosed p hpmem hb
      exfalso
      have hdrop : (startChannel w init).sockets.dropLast =
          (match w.currentWs with
           | some i => closeSocket w.sockets i
           | none => w.sockets) := by
        unfold startChannel
        cases w.currentWs <;> simp
      rw [hdrop] at hp
      have hkeymem : p.1 ∈ w.sockets.map Prod.fst := by
        cases hcur : w.currentWs with
        | none => rw [hcur] at hp; exact List.mem_map_of_mem _ hp
        | some i =>
            rw [hcur] at hp
            have := List.mem_map_of_mem Prod.fst hp
            rw [keys_closeSocket] at this
            exact this
      rw [List.mem_map] at hkeymem
      obtain ⟨q, hq, hqp⟩ := hkeymem
      have := hwf.2.1 q hq
      rw [hqp, hid] at this
      exact Nat.lt_irrefl _ this
    · rw [Bool.not_eq_false] at hb
      simp [hb]
  rw [hnil]
  simp

/-- C1: two consecutive start() calls on a channel leave exactly one
non-closed transport, namely the one created by the second start, and a
frame on the first, superseded socket arriving after the second start is
not applied to state (the runtime discards messages on a socket whose
close() has been called). -/
theorem start_twice_supersedes {σ ε : Type} (w : ChannelWorld σ) (hwf : ChannelWF w)
    (init1 init2 : σ → σ) (reduce : σ → ε → σ) (ev : ε) :
    liveSockets (startChannel (startChannel w init1) init2) = [w.nextId + 1]
  ∧ (startChannel (startChannel w init1) init2).currentWs = some (w.nextId + 1)
  ∧ deliverFrame reduce (startChannel (startChannel w init1) init2) w.nextId ev
      = startChannel (startChannel w init1) init2 := by
  have hwf1 := wf_after_start w hwf init1
  have hnext1 : (startChannel w init1).nextId = w.nextId + 1 := rfl
  refine ⟨?_, rfl, ?_⟩
  · rw [liveSockets_after_start (startChannel w init1) hwf1 init2, hnext1]
  · unfold deliverFrame
    rw [if_pos]
    unfold socketClosed
    cases hfind : (startChannel (startChannel w init1) init2).sockets.find?
        (fun p => p.1 == w.nextId) with
    | none => rfl
    | some p =>
        have hmem := List.mem_of_find?_eq_some hfind
        have hpred := List.find?_some hfind
        have hid : p.1 = w.nextId := by
          simpa using hpred
        by_cases hb : p.2 = false
        · have := open_after_start (startChannel w init1) hwf1 init2 p hmem hb
          rw [hnext1] at this
          rw [hid] at this
          exact absurd this (Nat.ne_of_lt (Nat.lt_succ_self _))
        · rw [Bool.not_eq_false] at hb
          exact hb

/-- Witness for C1 at a concrete empty channel world. -/
theorem start_twice_supersedes_witness :
    ChannelWF (ChannelWorld.mk [] none 0 (0 : Nat))
  ∧ liveSockets (startChannel (startChannel (ChannelWorld.mk [] none 0 (0 : Nat)) id) id) = [1]
  ∧ deliverFrame (fun (s e : Nat) => s + e)
      (startChannel (startChannel (ChannelWorld.mk [] none 0 (0 : Nat)) id) id) 0 5
      = startChannel (startChannel (ChannelWorld.mk [] none 0 (0 : Nat)) id) id := by
  have hwf : ChannelWF (ChannelWorld.mk [] none 0 (0 : Nat)) := by
    refine ⟨List.nodup_nil, ?_, ?_⟩ <;> intro p hp <;> cases hp
  have h := start_twice_supersedes (ChannelWorld.mk [] none 0 (0 : Nat)) hwf id id
    (fun (s e : Nat) => s + e) 5
  exact ⟨hwf, h.1, h.2.2⟩

end DeepTutor
